import Mathlib

/-!
# Verification of the LibFS user-space file system (Team_20_Project_4/Code/LibFS.c)

A shallow embedding of the file-system layer of LibFS.c and proofs about it.

Modelling conventions, used throughout:

* C `int` values are modelled as `Int`; C truncating division and
  remainder are `Int.tdiv` and `Int.tmod`.  Geometry constants
  (`SECTOR_SIZE`, `TOTAL_SECTORS`, `MAX_FILES`, `MAX_SECTORS_PER_FILE`)
  come from headers that are not part of this source tree, so they are
  carried as a parameter record `Geo`; the derived layout constants are
  computed exactly as the corresponding C macros compute them.
* The disk is modelled through typed views that mirror how LibFS.c
  itself interprets sectors: a byte view for the bitmap sectors, an
  inode view for the inode-table sectors and a dirent view for
  directory data sectors.  In every state the code manipulates, these
  regions are disjoint, so the views do not alias.  All views are total
  functions, so out-of-range reads (which are undefined behaviour in
  the C) return whatever value the model state stores there.
* A C `assert` whose condition fails, i.e. a crash, is modelled by the
  `none` value of an `Option` result; in-band error codes (-1, -2, ...)
  stay ordinary values.
* Loops whose iteration count is bounded by the data are written with
  an explicit iteration budget (`fuel`); every caller passes a budget
  that the C loop provably never exceeds, so the budget is never the
  reason a recursion stops.
-/

set_option autoImplicit false
set_option maxHeartbeats 1000000
set_option maxRecDepth 100000

namespace LibFS

/-- Compile-time geometry, supplied by LibDisk.h / LibFS.h (not part of
this source tree): bytes per sector, total sectors, maximum number of
inodes, and maximum data sectors per file. -/
structure Geo where
  SECTOR_SIZE : Nat
  TOTAL_SECTORS : Nat
  MAX_FILES : Nat
  MAX_SECTORS_PER_FILE : Nat
deriving DecidableEq

/-- LibFS.c line 30: the superblock occupies sector 0. -/
def SUPERBLOCK_START_SECTOR : Nat := 0

/-- LibFS.c line 37: the inode bitmap starts right after the superblock. -/
def INODE_BITMAP_START_SECTOR : Nat := 1

/-- LibFS.c line 42: bytes of the inode bitmap, one bit per inode. -/
def INODE_BITMAP_SIZE (g : Geo) : Nat := (g.MAX_FILES + 7) / 8

/-- LibFS.c line 43: sectors occupied by the inode bitmap. -/
def INODE_BITMAP_SECTORS (g : Geo) : Nat :=
  (INODE_BITMAP_SIZE g + g.SECTOR_SIZE - 1) / g.SECTOR_SIZE

/-- LibFS.c line 47: the sector bitmap starts after the inode bitmap. -/
def SECTOR_BITMAP_START_SECTOR (g : Geo) : Nat :=
  INODE_BITMAP_START_SECTOR + INODE_BITMAP_SECTORS g

/-- LibFS.c line 52: bytes of the sector bitmap, one bit per disk sector. -/
def SECTOR_BITMAP_SIZE (g : Geo) : Nat := (g.TOTAL_SECTORS + 7) / 8

/-- LibFS.c line 53: sectors occupied by the sector bitmap. -/
def SECTOR_BITMAP_SECTORS (g : Geo) : Nat :=
  (SECTOR_BITMAP_SIZE g + g.SECTOR_SIZE - 1) / g.SECTOR_SIZE

/-- LibFS.c line 57: the inode table starts after the sector bitmap. -/
def INODE_TABLE_START_SECTOR (g : Geo) : Nat :=
  SECTOR_BITMAP_START_SECTOR g + SECTOR_BITMAP_SECTORS g

/-- Size in bytes of `struct _inode` (LibFS.c lines 62-66): two 4-byte
ints plus `MAX_SECTORS_PER_FILE` 4-byte sector indices, no padding. -/
def sizeof_inode (g : Geo) : Nat := 8 + 4 * g.MAX_SECTORS_PER_FILE

/-- LibFS.c line 75: inodes per inode-table sector. -/
def INODES_PER_SECTOR (g : Geo) : Nat := g.SECTOR_SIZE / sizeof_inode g

/-- LibFS.c line 76: sectors occupied by the inode table. -/
def INODE_TABLE_SECTORS (g : Geo) : Nat :=
  (g.MAX_FILES + INODES_PER_SECTOR g - 1) / INODES_PER_SECTOR g

/-- LibFS.c line 80: first data-block sector. -/
def DATABLOCK_START_SECTOR (g : Geo) : Nat :=
  INODE_TABLE_START_SECTOR g + INODE_TABLE_SECTORS g

/-- LibFS.c line 85. -/
def MAX_PATH : Nat := 256

/-- LibFS.c line 88. -/
def MAX_NAME : Nat := 16

/-- LibFS.c line 91. -/
def MAX_OPEN_FILES : Nat := 256

/-- Size in bytes of `struct _dirent` (LibFS.c lines 96-99): a 16-byte
name buffer plus a 4-byte int, no padding. -/
def sizeof_dirent : Nat := 20

/-- LibFS.c line 102: dirents per directory data sector. -/
def DIRENTS_PER_SECTOR (g : Geo) : Nat := g.SECTOR_SIZE / sizeof_dirent

/-- The error codes of the `osErrno` taxonomy (LibFS.h). -/
inductive Errno where
  | E_GENERAL
  | E_CREATE
  | E_NO_SUCH_FILE
  | E_NO_SUCH_DIR
  | E_TOO_MANY_OPEN_FILES
  | E_BAD_FD
  | E_FILE_IN_USE
  | E_FILE_TOO_BIG
  | E_NO_SPACE
  | E_SEEK_OUT_OF_BOUNDS
  | E_DIR_NOT_EMPTY
  | E_ROOT_DIR
  | E_BUFFER_TOO_SMALL
deriving DecidableEq

/-! ## Byte-level bitmap engine (LibFS.c lines 112-303)

The bitmap sectors are modelled byte for byte: `DiskB` maps a sector
number and a byte offset to the byte stored there. -/

/-- Byte view of (a region of) the disk: sector number, byte offset,
byte value. -/
def DiskB : Type := Nat → Nat → Nat

/-- Overwrite one byte of one sector of a byte-view disk.  A C
`Disk_Write` of a whole sector buffer in which a single byte changed is
equivalent to this. -/
def updByte (d : DiskB) (sec off v : Nat) : DiskB :=
  fun s b => if s = sec ∧ b = off then v else d s b

/-- LibFS.c lines 112-120, `signum`. -/
def signum (n : Int) : Int :=
  if n = 0 then 0 else if n > 0 then 1 else -1

/-- LibFS.c lines 180-183, `isBitSet`: the mask table is
`{128, 64, 32, 16, 8, 4, 2, 1}`, so position `n` tests bit `7 - n` in
least-significant-bit numbering. -/
def isBitSet (c : Nat) (n : Nat) : Bool := c.testBit (7 - n)

/-- LibFS.c lines 188-191, `setBit`: or in `128 >> n`, i.e.
`2 ^ (7 - n)`. -/
def setBit (c : Nat) (n : Nat) : Nat := c ||| 2 ^ (7 - n)

/-- The partial-byte table of `bitmap_init` (LibFS.c line 154):
`{0x0, 0x80, 0xC0, 0xE0, 0xF0, 0xF8, 0xFC, 0xFE}`, the byte whose first
`r` bits (in MSB-first order) are one. -/
def bitsTable (r : Nat) : Nat :=
  [0x0, 0x80, 0xC0, 0xE0, 0xF0, 0xF8, 0xFC, 0xFE].getD r 0

/-- Content written by `bitmap_init` for the partial sector
(LibFS.c lines 147-163): bytes below `remaining_bytes` are 0xFF (left
over from the all-ones fill), byte `remaining_bytes` holds the partial
pattern, and the bytes above it are zeroed. -/
def bitmapInitPartialSector (rb rem : Nat) : Nat → Nat :=
  fun b => if b < rb then 0xFF else if b = rb then bitsTable rem else 0

/-- Content written by `bitmap_init` for the trailing sectors
(LibFS.c lines 166-173): the loop zeroes only bytes `[0, remaining_bytes)`
of the reused buffer, so byte `remaining_bytes` still holds the partial
pattern `bits[nbits mod 8]` from line 159; every other byte is 0. -/
def bitmapInitZeroSector (rb rem : Nat) : Nat → Nat :=
  fun b => if b = rb then bitsTable rem else 0

/-- The sequence of sector writes performed by `bitmap_init(start, num,
nbits)` (LibFS.c lines 135-175), in program order: `sectors_set_to_one`
all-ones sectors, then the partial sector, then
`num - sectors_set_to_one - signum(remaining_bytes)` trailing sectors. -/
def bitmapInitWrites (SS start num nbits : Nat) : List (Nat × (Nat → Nat)) :=
  let sectors_set_to_one := nbits / 8 / SS
  let remaining_bytes := nbits / 8 % SS
  let sectors_set_to_zero : Int :=
    (num : Int) - (sectors_set_to_one : Int) - signum (remaining_bytes : Int)
  let rem := nbits % 8
  ((List.range sectors_set_to_one).map (fun k => (start + k, fun _ => 0xFF)))
    ++ [(start + sectors_set_to_one, bitmapInitPartialSector remaining_bytes rem)]
    ++ ((List.range sectors_set_to_zero.toNat).map
          (fun k => (start + sectors_set_to_one + 1 + k,
                     bitmapInitZeroSector remaining_bytes rem)))

/-- Apply a list of whole-sector writes to a byte-view disk, in order. -/
def applyWrites (d : DiskB) (ws : List (Nat × (Nat → Nat))) : DiskB :=
  ws.foldl (fun acc w => fun s b => if s = w.1 then w.2 b else acc s b) d

/-- LibFS.c lines 135-175, `bitmap_init`: initialize a bitmap of `num`
sectors starting at sector `start` whose first `nbits` bits are one. -/
def bitmap_init (SS start num nbits : Nat) (d : DiskB) : DiskB :=
  applyWrites d (bitmapInitWrites SS start num nbits)

/-- Scan of one sector by `bitmap_first_unused` (LibFS.c lines 227-262):
all 8 bits of bytes `[0, limit)`, then, when `last_block` is set, bits
`[0, extra)` of byte `limit`.  Returns the examined-bit offset of the
first clear bit, if any. -/
def bfuScanSector (buf : Nat → Nat) (limit extra : Nat) : Option Nat :=
  (List.range (limit * 8 + extra)).find? (fun t =>
    if t < limit * 8 then ! isBitSet (buf (t / 8)) (t % 8)
    else ! isBitSet (buf limit) (t - limit * 8))

/-- The sector loop of `bitmap_first_unused` (LibFS.c lines 205-264).
`i` is the current sector, `rem` the sectors still to visit, `base` the
number of bits examined so far (the running `location` counter).  The
flag `last_block` of the C code is set when `nbits / 8 < SECTOR_SIZE`;
since neither quantity changes inside the loop the flag has the same
value in every iteration, which the `limit`/`extra` computation below
reflects. -/
def bfuGo (SS nbits : Nat) : Nat → Nat → Nat → DiskB → Int × DiskB
  | _, 0, _, d => (-1, d)
  | i, rem + 1, base, d =>
    let bytes_set_to_one := nbits / 8
    let remaining_bits := nbits % 8
    let last_block := bytes_set_to_one < SS
    let limit := if last_block then bytes_set_to_one else SS
    let extra := if last_block then remaining_bits else 0
    match bfuScanSector (d i) limit extra with
    | some t =>
      let b := if t < limit * 8 then t / 8 else limit
      let bit := if t < limit * 8 then t % 8 else t - limit * 8
      (((base + t : Nat) : Int), updByte d i b (setBit (d i b) bit))
    | none => bfuGo SS nbits (i + 1) rem (base + (limit * 8 + extra)) d

/-- LibFS.c lines 196-266, `bitmap_first_unused`: find, set and return
the first clear bit of the bitmap at sectors `[start, start+num)`;
return -1 when the scan finds none.  Note that the scanned range is
governed by the `nbits` argument interpreted as in the code: `nbits / 8`
full bytes plus `nbits mod 8` further bits. -/
def bitmap_first_unused (SS start num nbits : Nat) (d : DiskB) : Int × DiskB :=
  bfuGo SS nbits start num 0 d

/-- The byte-wrapping loop of `bitmap_reset` (LibFS.c lines 283-285):
`while (number_bytes > SECTOR_SIZE) number_bytes -= SECTOR_SIZE`.  The
budget `fuel` bounds the iteration count; callers pass
`number_bytes.toNat + 1`, which suffices whenever `SECTOR_SIZE ≥ 1`. -/
def wrapBytes (SS : Nat) : Nat → Int → Int
  | 0, nb => nb
  | fuel + 1, nb => if nb > (SS : Int) then wrapBytes SS fuel (nb - (SS : Int)) else nb

/-- The mask table of `bitmap_reset` (LibFS.c line 293):
`{127, 191, 223, 239, 247, 251, 253, 254}`, the byte with every bit set
except bit `r` in MSB-first order. -/
def resetMask (r : Nat) : Nat :=
  [127, 191, 223, 239, 247, 251, 253, 254].getD r 0xFF

/-- LibFS.c lines 270-303, `bitmap_reset`: clear bit `ibit` of the
bitmap starting at sector `start`.  Faithfully to the code, the sector
read and written back is always sector `start` itself, with the byte
index wrapped into range by repeated subtraction of `SECTOR_SIZE`. -/
def bitmap_reset (SS start num : Nat) (ibit : Int) (d : DiskB) : Int × DiskB :=
  let number_bytes := ibit.tdiv 8
  let remaining_bits := ibit.tmod 8
  if number_bytes > ((SS * num : Nat) : Int) then (-1, d)
  else
    let nb := wrapBytes SS (number_bytes.toNat + 1) number_bytes
    let off := nb.toNat
    let v := (d start off) &&& resetMask remaining_bits.toNat
    (0, updByte d start off v)

/-- The two `bitmap_init` calls of the format path of `FS_Boot`
(LibFS.c lines 765-773), in program order: first the inode bitmap with
one reserved bit, then the sector bitmap with
`DATABLOCK_START_SECTOR` reserved bits. -/
def FS_Boot_bitmaps (g : Geo) (d : DiskB) : DiskB :=
  bitmap_init g.SECTOR_SIZE (SECTOR_BITMAP_START_SECTOR g) (SECTOR_BITMAP_SECTORS g)
    (DATABLOCK_START_SECTOR g)
    (bitmap_init g.SECTOR_SIZE INODE_BITMAP_START_SECTOR (INODE_BITMAP_SECTORS g) 1 d)

/-- Bit `k` of the bitmap whose first sector is `start`, under the
MSB-first numbering of the code: sector `start + k / (SECTOR_SIZE*8)`,
byte `(k/8) mod SECTOR_SIZE`, bit position `k mod 8`. -/
def bitmapBit (SS start : Nat) (d : DiskB) (k : Nat) : Bool :=
  isBitSet (d (start + k / (SS * 8)) (k / 8 % SS)) (k % 8)

/-- The inode allocation performed by `add_inode` (LibFS.c line 448):
note that the `nbits` argument passed is `INODE_BITMAP_SIZE`, the byte
count of the bitmap, not its bit capacity `MAX_FILES`. -/
def add_inode_alloc (g : Geo) (d : DiskB) : Int × DiskB :=
  bitmap_first_unused g.SECTOR_SIZE INODE_BITMAP_START_SECTOR
    (INODE_BITMAP_SECTORS g) (INODE_BITMAP_SIZE g) d

/-! ## Typed file-system state

The inode table and the directory data sectors are modelled through the
record types the C code casts its sector buffers to.  File names are
lists of characters (C strings without the terminator). -/

/-- LibFS.c lines 62-66, `struct _inode`.  The `data` array is indexed
by `Int` because the C code indexes it with `int` expressions that can
fall outside `[0, MAX_SECTORS_PER_FILE)`; values at such indices model
the adjacent memory the C would read. -/
structure Inode where
  size : Int
  type : Int
  data : Int → Int

/-- LibFS.c lines 96-99, `struct _dirent`. -/
structure Dirent where
  fname : List Char
  inode : Int
deriving DecidableEq

/-- LibFS.c lines 700-704, `struct _open_file`. -/
structure OpenFile where
  inode : Int
  size : Int
  pos : Int
deriving DecidableEq

/-- The open-file table `open_files` (LibFS.c line 705).  Indexed by
`Int` because `File_Read`, `File_Write` and `File_Seek` index it with
an arbitrary `int` file descriptor; values outside `[0,
MAX_OPEN_FILES)` model the adjacent memory the C would access. -/
def OpenFiles : Type := Int → OpenFile

/-- The disk, as the file-system layer views it: the inode table by
inode number, the directory data sectors as dirent arrays (sector
number, slot index), the file data sectors as byte arrays, and the
bitmap region byte for byte.  In the states LibFS manipulates these
sector regions are disjoint, so keeping them as separate views loses
nothing. -/
structure FS where
  inodes : Int → Inode
  dirents : Int → Int → Dirent
  bytes : Int → Int → Nat
  bmDisk : DiskB

/-- The all-zero inode record, the result of `memset(child, 0,
sizeof(inode_t))`. -/
def zeroInode : Inode := ⟨0, 0, fun _ => 0⟩

/-- Replace the inode record of inode number `i` (`Disk_Write` of its
inode-table sector after mutating the record in the buffer). -/
def updInode (fs : FS) (i : Int) (v : Inode) : FS :=
  ⟨fun j => if j = i then v else fs.inodes j, fs.dirents, fs.bytes, fs.bmDisk⟩

/-- Replace one dirent slot of one directory data sector (`Disk_Write`
of the sector after mutating one slot in the buffer). -/
def updDirent (fs : FS) (sec slot : Int) (v : Dirent) : FS :=
  ⟨fs.inodes, fun s j => if s = sec ∧ j = slot then v else fs.dirents s j,
   fs.bytes, fs.bmDisk⟩

/-- Replace the byte view of the file data sectors. -/
def updBytes (fs : FS) (b : Int → Int → Nat) : FS :=
  ⟨fs.inodes, fs.dirents, b, fs.bmDisk⟩

/-- Replace the bitmap region. -/
def updBm (fs : FS) (d : DiskB) : FS := ⟨fs.inodes, fs.dirents, fs.bytes, d⟩

/-- Replace one entry of the open-file table. -/
def updOF (of : OpenFiles) (fd : Int) (v : OpenFile) : OpenFiles :=
  fun j => if j = fd then v else of j

/-- Fetch the inode record for inode number `i`, through the sector
arithmetic the C performs each time (e.g. LibFS.c lines 565-578):
`inode_sector = INODE_TABLE_START_SECTOR + i / INODES_PER_SECTOR`,
`offset = i - (inode_sector - INODE_TABLE_START_SECTOR) *
INODES_PER_SECTOR`, followed by `assert(0 <= offset && offset <
INODES_PER_SECTOR)`.  A failing assert is a crash, modelled as
`none`. -/
def inodeAt (g : Geo) (fs : FS) (i : Int) : Option Inode :=
  let IPS : Int := (INODES_PER_SECTOR g : Int)
  let inode_sector : Int := (INODE_TABLE_START_SECTOR g : Int) + i.tdiv IPS
  let offset : Int := i - (inode_sector - (INODE_TABLE_START_SECTOR g : Int)) * IPS
  if 0 ≤ offset ∧ offset < IPS then some (fs.inodes i) else none

/-! ## Open-file helpers and path resolution -/

/-- LibFS.c lines 708-715, `is_file_open`: scan the whole open-file
table for an entry whose `inode` field equals the argument. -/
def is_file_open (of : OpenFiles) (inode : Int) : Bool :=
  (List.range MAX_OPEN_FILES).any (fun (i : Nat) => (of (i : Int)).inode == inode)

/-- LibFS.c lines 309-324, the legal-character test of
`illegal_filename`: `isalpha`, `isdigit`, dash, underscore or dot. -/
def legalChar (c : Char) : Bool :=
  (('A' ≤ c && c ≤ 'Z') || ('a' ≤ c && c ≤ 'z') || ('0' ≤ c && c ≤ '9')
    || c == '-' || c == '_' || c == '.')

/-- LibFS.c lines 309-324, `illegal_filename`: a name is illegal when
longer than `MAX_NAME - 1` characters or containing an illegal
character. -/
def illegal_filename (name : List Char) : Bool :=
  if name.length > MAX_NAME - 1 then true else ! name.all legalChar

/-- Split a character list at every slash, the token sequence
`strsep(&lpath, "/")` produces in `follow_path` (LibFS.c line 410):
consecutive separators yield empty tokens, and the empty input yields
one empty token. -/
def splitSlash : List Char → List (List Char)
  | [] => [[]]
  | c :: rest =>
    if c = '/' then [] :: splitSlash rest
    else
      match splitSlash rest with
      | t :: ts => (c :: t) :: ts
      | [] => [[c]]

/-- The sector-walk loop of `find_child_inode` (LibFS.c lines 348-369).
`nentries` is the count of directory entries not yet accounted for and
`idx` the index into the parent `data` array.  Within a sector the C
scans slot `i` as long as `i ≤ nentries` (the `if (i > nentries) break`
on line 354), so for a directory of size `n` whose last sector holds
`r = n mod DIRENTS_PER_SECTOR > 0` live entries the stale slot at index
`r` is examined as well.  `fuel` bounds the iterations; callers pass
`size.toNat + 1`, enough because each iteration subtracts
`DIRENTS_PER_SECTOR ≥ 1` from `nentries`. -/
def findChildGo (g : Geo) (fs : FS) (pdata : Nat → Int) (fname : List Char) :
    Nat → Int → Nat → Int
  | 0, _, _ => -1
  | fuel + 1, nentries, idx =>
    if nentries > 0 then
      let sec := pdata idx
      match (List.range (DIRENTS_PER_SECTOR g)).find?
          (fun (i : Nat) => decide ((i : Int) ≤ nentries)
            && (fs.dirents sec (i : Int)).fname == fname) with
      | some i => (fs.dirents sec (i : Int)).inode
      | none =>
        findChildGo g fs pdata fname fuel
          (nentries - (DIRENTS_PER_SECTOR g : Int)) (idx + 1)
    else -1

/-- LibFS.c lines 334-372, `find_child_inode`: look `fname` up in the
directory `parent_inode`.  Returns the child inode number, -1 when not
found, -2 when the parent is not a directory.  The one-sector inode
cache of the C code only changes which sector is buffered, never the
values read, so it is not modelled; the `assert` on the parent offset
cannot fire because `follow_path` only passes non-negative parents. -/
def find_child_inode (g : Geo) (fs : FS) (parent_inode : Int) (fname : List Char) :
    Int :=
  let parent := fs.inodes parent_inode
  if parent.type ≠ 1 then -2
  else findChildGo g fs (fun idx => parent.data (idx : Int)) fname
    (parent.size.toNat + 1) parent.size 0

/-- The token loop of `follow_path` (LibFS.c lines 410-428), carrying
the running `(parent_inode, child_inode)` pair.  After the loop the C
returns -1 when `child_inode < -1`, otherwise the pair, with the
special case `parent = child = 0` for the bare root path.  A failure
return (-1) leaves the out-parameter `last_inode` unset; the model
returns `(-1, 0)` for it, and no caller reads the child of a failed
resolution. -/
def followTokens (g : Geo) (fs : FS) : List (List Char) → Int → Int → Int × Int
  | [], parent, child =>
    if child < -1 then (-1, 0)
    else if parent = -1 ∧ child = 0 then (0, 0)
    else (parent, child)
  | tok :: rest, parent, child =>
    if tok = [] then followTokens g fs rest parent child
    else if illegal_filename tok then (-1, 0)
    else if child < 0 then (-1, 0)
    else followTokens g fs rest child (find_child_inode g fs child tok)

/-- LibFS.c lines 383-441, `follow_path`: resolve an absolute path to
`(parent_inode, child_inode)`.  The path must start with a slash; the
copy into `pathstore` truncates it to `MAX_PATH - 1` characters.  A
resolution failure is the pair `(-1, 0)` (the C returns -1 and leaves
the child out-parameter unset). -/
def follow_path (g : Geo) (fs : FS) (path : List Char) : Int × Int :=
  match path with
  | '/' :: rest => followTokens g fs (splitSlash (rest.take (MAX_PATH - 1))) (-1) 0
  | _ => (-1, 0)

/-! ## Remove and unlink (LibFS.c lines 561-697, 875-927, 1176-1196) -/

/-- The search of `remove_inode` for the dirent holding the child
(LibFS.c lines 655-685): every group `[0, MAX_SECTORS_PER_FILE)` is
visited in order — including groups with no allocated sector, whose
`data` entry is 0 — and within each group every slot
`[0, DIRENTS_PER_SECTOR)`; the first slot whose `inode` field equals
the child stops the search. -/
def direntSearch (g : Geo) (fs : FS) (parent : Inode) (child_inode : Int) :
    Option (Nat × Nat) :=
  (List.range g.MAX_SECTORS_PER_FILE).findSome? (fun (gi : Nat) =>
    ((List.range (DIRENTS_PER_SECTOR g)).find? (fun (e : Nat) =>
        (fs.dirents (parent.data (gi : Int)) (e : Int)).inode == child_inode)).map
      (fun (e : Nat) => (gi, e)))

/-- The data-sector reclamation loop of `remove_inode` (LibFS.c lines
591-599): for a file inode, every positive `data[i]` has its
sector-bitmap bit cleared. -/
def removeFreeData (g : Geo) (child : Inode) (fs : FS) : FS :=
  (List.range g.MAX_SECTORS_PER_FILE).foldl
    (fun (acc : FS) (i : Nat) =>
      if child.data (i : Int) > 0 then
        updBm acc (bitmap_reset g.SECTOR_SIZE (SECTOR_BITMAP_START_SECTOR g)
          (SECTOR_BITMAP_SECTORS g) (child.data (i : Int)) acc.bmDisk).2
      else acc)
    fs

/-- LibFS.c lines 561-697, `remove_inode`: remove `child_inode` from
directory `parent_inode`.  Returns 0 on success, -1 on general error,
-2 when the directory is not empty (also when the parent is not a
directory), -3 on a type mismatch.  Two behaviours of the code are
modelled exactly as written:

* the swap-with-last block runs only when `parent->size > 1`, and its
  `memset(last_dirent, 0, sizeof(dirent_t))` zeroes a separate local
  buffer (`last_dirent_buffer`) that is never written back to disk —
  the only dirent sector written is `parent->data[group]` with the
  child slot overwritten by the last dirent — so the vacated last slot
  keeps its old contents on disk; the interim `Disk_Write` of the
  parent inode sector (line 679) writes back unmodified values and is
  a no-op in the model;
* `last_group` is computed as `parent->size / DIRENTS_PER_SECTOR`
  without subtracting one, so when the size is a multiple of
  `DIRENTS_PER_SECTOR` the "last dirent" is read from an unallocated
  group at a negative slot offset. -/
def remove_inode (g : Geo) (fs : FS) (type parent_inode child_inode : Int) :
    Option (Int × FS) :=
  match inodeAt g fs child_inode with
  | none => none
  | some child =>
    if child.type ≠ type then some (-3, fs)
    else if child.type = 1 ∧ child.size > 0 then some (-2, fs)
    else
      let fs1 := if child.type = 0 then removeFreeData g child fs else fs
      let fs2 := updInode fs1 child_inode zeroInode
      let fs3 := updBm fs2 (bitmap_reset g.SECTOR_SIZE INODE_BITMAP_START_SECTOR
        (INODE_BITMAP_SECTORS g) child_inode fs2.bmDisk).2
      match inodeAt g fs3 parent_inode with
      | none => none
      | some parent =>
        if parent.type ≠ 1 then some (-2, fs3)
        else
          let fs4 :=
            if parent.size > 1 then
              let last_group := parent.size.tdiv ((DIRENTS_PER_SECTOR g : Nat) : Int)
              let last_sector := parent.data last_group
              let offset := parent.size - last_group * ((DIRENTS_PER_SECTOR g : Nat) : Int) - 1
              let last_dirent := fs3.dirents last_sector offset
              match direntSearch g fs3 parent child_inode with
              | some (gi, e) => updDirent fs3 (parent.data (gi : Int)) (e : Int) last_dirent
              | none => fs3
            else fs3
          some (0, updInode fs4 parent_inode ⟨parent.size - 1, parent.type, parent.data⟩)

/-- LibFS.c lines 875-927, `File_Unlink`: resolve the path, then fail
with `E_FILE_IN_USE` when some open-file entry references the child
inode, otherwise remove it as a file and translate the `remove_inode`
result code into an errno.  The result is the returned int, the errno
this call sets (`none` when it sets none), and the final disk and
open-file states. -/
def File_Unlink (g : Geo) (fs : FS) (of : OpenFiles) (file : List Char) :
    Option (Int × Option Errno × FS × OpenFiles) :=
  let pc := follow_path g fs file
  if 0 ≤ pc.1 then
    if 0 ≤ pc.2 then
      if is_file_open of pc.2 then some (-1, some Errno.E_FILE_IN_USE, fs, of)
      else
        match remove_inode g fs 0 pc.1 pc.2 with
        | none => none
        | some (r, fs2) =>
          if r = 0 then some (0, none, fs2, of)
          else if r = -1 then some (-1, some Errno.E_GENERAL, fs2, of)
          else if r = -2 then some (-1, some Errno.E_DIR_NOT_EMPTY, fs2, of)
          else if r = -3 then some (-1, some Errno.E_GENERAL, fs2, of)
          else some (-1, none, fs2, of)
    else some (-1, some Errno.E_NO_SUCH_FILE, fs, of)
  else some (-1, some Errno.E_NO_SUCH_FILE, fs, of)

/-- LibFS.c lines 1176-1196, `Dir_Unlink`: resolve the path (the C
calls `follow_path` before any check), fail with `E_ROOT_DIR` on the
bare root path, with `E_NO_SUCH_DIR` when resolution failed, and
otherwise call `remove_inode` with type directory, reporting any of
its failures as `E_DIR_NOT_EMPTY`.  Note that a resolved-but-absent
child (`child_inode = -1`) is passed straight to `remove_inode`. -/
def Dir_Unlink (g : Geo) (fs : FS) (path : List Char) :
    Option (Int × Option Errno × FS) :=
  let pc := follow_path g fs path
  if path = ['/'] then some (-1, some Errno.E_ROOT_DIR, fs)
  else if pc.1 < 0 then some (-1, some Errno.E_NO_SUCH_DIR, fs)
  else
    match remove_inode g fs 1 pc.1 pc.2 with
    | none => none
    | some (r, fs2) =>
      if r < 0 then some (-1, some Errno.E_DIR_NOT_EMPTY, fs2)
      else some (0, none, fs2)

/-! ## File read, write, seek (LibFS.c lines 980-1149) -/

/-- LibFS.c lines 980-1044, `File_Read`: validate the descriptor with
`is_file_open(fd)` — the fd value itself is compared against the
`inode` fields of the table — return 0 at end of file, and otherwise
run the transfer loop.  The loop body ends in an unconditional
`return out_pos` (line 1041), so at most one sector is serviced; the
amount transferred is `to_read = (size > SECTOR_SIZE ? SECTOR_SIZE :
size) - pos mod SECTOR_SIZE`, the position is advanced by `to_read`
and then clamped to the file size, and when the loop guard fails
immediately (a non-positive requested size) the function returns -1.
The result is the returned int, the errno set, the final open-file
table, and the bytes copied into the caller buffer. -/
def File_Read (g : Geo) (fs : FS) (of : OpenFiles) (fd : Int) (size : Int) :
    Option (Int × Option Errno × OpenFiles × List Nat) :=
  if is_file_open of fd = false then some (-1, some Errno.E_BAD_FD, of, [])
  else
    let f := of fd
    if f.pos = f.size then some (0, none, of, [])
    else
      match inodeAt g fs f.inode with
      | none => none
      | some child =>
        let left := size
        let current_position_in_sector := f.pos.tmod (g.SECTOR_SIZE : Int)
        let current_sector := f.pos.tdiv (g.SECTOR_SIZE : Int)
        if left > 0 ∧ f.pos < f.size then
          let to_read :=
            if left > (g.SECTOR_SIZE : Int)
            then (g.SECTOR_SIZE : Int) - current_position_in_sector
            else left - current_position_in_sector
          let out := (List.range to_read.toNat).map
            (fun j => fs.bytes (child.data current_sector)
              (current_position_in_sector + (j : Int)))
          let pos1 := f.pos + to_read
          let pos2 := if pos1 > f.size then f.size else pos1
          some (to_read, none, updOF of fd ⟨f.inode, f.size, pos2⟩, out)
        else some (-1, none, of, [])

/-- LibFS.c lines 1135-1149, `File_Seek`: the validation checks
`is_file_open(open_files[fd].inode)`, and the bounds check is
`f->size < offset || f->size < 0` — the offset itself is never
compared against zero. -/
def File_Seek (of : OpenFiles) (fd : Int) (offset : Int) :
    Int × Option Errno × OpenFiles :=
  let f := of fd
  if is_file_open of f.inode = false then (-1, some Errno.E_BAD_FD, of)
  else if f.size < offset ∨ f.size < 0 then (-1, some Errno.E_SEEK_OUT_OF_BOUNDS, of)
  else (offset, none, updOF of fd ⟨f.inode, f.size, offset⟩)

/-- The sector-allocation loop of `File_Write` (LibFS.c lines
1085-1096): allocate `k` sectors from the sector bitmap, installing
each into `data` starting at index `i`.  On exhaustion the C returns
at once: the bitmap mutations made so far are already on disk, the
`data` mutations live only in the local buffer, so the failure result
carries the bitmap but discards the array. -/
def allocLoop (g : Geo) : Nat → Int → (Int → Int) → DiskB →
    Bool × (Int → Int) × DiskB
  | 0, _, data, bm => (true, data, bm)
  | k + 1, i, data, bm =>
    let r := bitmap_first_unused g.SECTOR_SIZE (SECTOR_BITMAP_START_SECTOR g)
      (SECTOR_BITMAP_SECTORS g) (SECTOR_BITMAP_SIZE g) bm
    if r.1 < 0 then (false, data, r.2)
    else allocLoop g k (i + 1) (fun j => if j = i then r.1 else data j) r.2

/-- The transfer loop of `File_Write` (LibFS.c lines 1110-1128), a
read-modify-write of each touched sector.  `rem` is the remaining
count of allocated sectors ahead of `current_sector` (the loop guard
`current_sector < allocated_sectors`); the body also stops when `left`
is no longer positive.  `to_write` mirrors the C exactly, including
that for `left ≤ SECTOR_SIZE` it is `left - current_position_in_sector`
rather than the remaining span of the sector.  Returns the updated
byte view, the final `left` and the final position. -/
def writeLoop (g : Geo) (buf : Int → Nat) (data : Int → Int) :
    Nat → (Int → Int → Nat) → Int → Int → Int → Int → Int →
    (Int → Int → Nat) × Int × Int
  | 0, bys, left, pos, _, _, _ => (bys, left, pos)
  | rem + 1, bys, left, pos, current_sector, current_position_in_sector, in_pos =>
    if left > 0 then
      let to_write :=
        if left > (g.SECTOR_SIZE : Int)
        then (g.SECTOR_SIZE : Int) - current_position_in_sector
        else left - current_position_in_sector
      let sec := data current_sector
      let bys2 : Int → Int → Nat := fun s j =>
        if s = sec ∧ current_position_in_sector ≤ j ∧
            j < current_position_in_sector + to_write
        then buf (in_pos + (j - current_position_in_sector))
        else bys s j
      writeLoop g buf data rem bys2 (left - to_write) (pos + to_write)
        (current_sector + 1) 0 (in_pos + to_write)
    else (bys, left, pos)

/-- LibFS.c lines 1050-1133, `File_Write`: validate the descriptor with
`is_file_open(fd)`, fail with `E_FILE_TOO_BIG` when
`pos + size > MAX_SECTORS_PER_FILE * SECTOR_SIZE`, allocate the
`needed_sectors` computed by the formula on line 1083, write the inode
sector back (note the C stores `child->size = f->size` only after that
`Disk_Write`, so the on-disk inode keeps its old size), then run the
transfer loop and return `size - left`. -/
def File_Write (g : Geo) (fs : FS) (of : OpenFiles) (fd : Int)
    (buf : Int → Nat) (size : Int) :
    Option (Int × Option Errno × FS × OpenFiles) :=
  if is_file_open of fd = false then some (-1, some Errno.E_BAD_FD, fs, of)
  else
    let f := of fd
    if f.pos + size > (g.MAX_SECTORS_PER_FILE : Int) * (g.SECTOR_SIZE : Int) then
      some (-1, some Errno.E_FILE_TOO_BIG, fs, of)
    else
      match inodeAt g fs f.inode with
      | none => none
      | some child =>
        let SS : Int := (g.SECTOR_SIZE : Int)
        let allocated_sectors := (f.size + SS - 1).tdiv SS
        let needed_sectors :=
          (size - (allocated_sectors * SS - f.pos) + SS - 1).tdiv SS
        let ar := allocLoop g needed_sectors.toNat allocated_sectors
          child.data fs.bmDisk
        if ar.1 = false then some (-1, some Errno.E_NO_SPACE, updBm fs ar.2.2, of)
        else
          let data2 := ar.2.1
          let fs2 := updBm (updInode fs f.inode ⟨child.size, child.type, data2⟩) ar.2.2
          let allocated2 := allocated_sectors + needed_sectors
          let newSize := f.pos + size
          let current_sector := f.pos.tdiv SS
          let current_position_in_sector := f.pos.tmod SS
          let wr := writeLoop g buf data2 (allocated2 - current_sector).toNat
            fs2.bytes size f.pos current_sector current_position_in_sector 0
          let result := size - wr.2.1
          some (result, none, updBytes fs2 wr.1,
            updOF of fd ⟨f.inode, newSize, wr.2.2⟩)

/-! ## Concrete geometries and states used to evaluate the code

`geoW` is the usual course geometry: 512-byte sectors, 10000 sectors,
1000 inodes, 30 data sectors per file.  Derived: 4 inodes and 25
dirents per sector, inode bitmap sector 1, sector bitmap sectors 2-4,
inode table sectors 5-254, data blocks from sector 255; the per-file
byte cap is 15360. -/
def geoW : Geo := ⟨512, 10000, 1000, 30⟩

/-- An empty disk state. -/
def fsEmpty : FS := ⟨fun _ => zeroInode, fun _ _ => ⟨[], 0⟩, fun _ _ => 0, fun _ _ => 0⟩

/-- A freshly formatted namespace: inode 0 is the empty root directory,
everything else is zero. -/
def freshFS : FS :=
  ⟨fun i => if i = 0 then ⟨0, 1, fun _ => 0⟩ else zeroInode,
   fun _ _ => ⟨[], 0⟩, fun _ _ => 0, fun _ _ => 0⟩

/-- Disk state with one ten-byte file at inode 1 (data sector 301),
linked as "f" from the root (data sector 300). -/
def fsC1 : FS :=
  ⟨fun i =>
      if i = 0 then ⟨1, 1, fun k => if k = 0 then 300 else 0⟩
      else if i = 1 then ⟨10, 0, fun k => if k = 0 then 301 else 0⟩
      else zeroInode,
   fun s e => if s = 300 ∧ e = 0 then ⟨['f'], 1⟩ else ⟨[], 0⟩,
   fun _ _ => 0, fun _ _ => 0⟩

/-- Open-file table with slot 0 holding the size-10 file at inode 1,
position 0; every other slot free. -/
def ofC1 : OpenFiles := fun i => if i = 0 then ⟨1, 10, 0⟩ else ⟨0, 0, 0⟩

/-- Open-file table with slot 0 holding the size-10 file at inode 1,
position 5; every other slot free. -/
def ofC2 : OpenFiles := fun i => if i = 0 then ⟨1, 10, 5⟩ else ⟨0, 0, 0⟩

/-- Disk state for the removal evaluation: the root directory (inode 0)
holds exactly one dirent, ("a", inode 2), in slot 0 of its data sector
300; inode 2 is an empty file; the bitmap bytes are all ones. -/
def fsC3 : FS :=
  ⟨fun i =>
      if i = 0 then ⟨1, 1, fun k => if k = 0 then 300 else 0⟩
      else if i = 2 then ⟨0, 0, fun _ => 0⟩
      else zeroInode,
   fun s e => if s = 300 ∧ e = 0 then ⟨['a'], 2⟩ else ⟨[], 0⟩,
   fun _ _ => 0, fun _ _ => 0xFF⟩

/-- Inode bitmap contents for the allocation evaluation under `geoC4`:
sector 1 (the single inode-bitmap sector) has its first byte 0xC0 —
bits 0 and 1 set, bits 2-15 of the 16-bit capacity clear. -/
def dC4 : DiskB := fun s b => if s = 1 ∧ b = 0 then 0xC0 else 0

/-- Small geometry for the allocation evaluation: `MAX_FILES = 16`, so
`INODE_BITMAP_SIZE = 2` bytes in one bitmap sector. -/
def geoC4 : Geo := ⟨512, 100, 16, 30⟩

/-- Disk state with one empty file at inode 1, linked as "f" from the
root (data sector 300). -/
def fsC6 : FS :=
  ⟨fun i =>
      if i = 0 then ⟨1, 1, fun k => if k = 0 then 300 else 0⟩
      else if i = 1 then ⟨0, 0, fun _ => 0⟩
      else zeroInode,
   fun s e => if s = 300 ∧ e = 0 then ⟨['f'], 1⟩ else ⟨[], 0⟩,
   fun _ _ => 0, fun _ _ => 0⟩

/-- Open-file table with slot 0 referencing inode 1; every other slot
free. -/
def ofC6 : OpenFiles := fun i => if i = 0 then ⟨1, 0, 0⟩ else ⟨0, 0, 0⟩

/-- Open-file table whose only occupied slot is slot 3, holding inode 7
at size 0 and position 0.  No entry of the table has inode field 3, so
the search-based validation rejects descriptor 3 even though slot 3 is
genuinely open. -/
def ofX : OpenFiles := fun i => if i = 3 then ⟨7, 0, 0⟩ else ⟨0, 0, 0⟩

/-- Open-file table with slot 0 holding inode 1 at size 0, position 0;
every other slot free. -/
def ofW : OpenFiles := fun i => if i = 0 then ⟨1, 0, 0⟩ else ⟨0, 0, 0⟩

/-- Small geometry for the format evaluation: 24-byte sectors, 200
total sectors, 6 inodes, 1 data sector per file.  Derived layout:
inode bitmap sector 1, sector bitmap sectors 2-3 (25 bitmap bytes),
inode table sectors 4-6, `DATABLOCK_START_SECTOR = 7`. -/
def geoC8 : Geo := ⟨24, 200, 6, 1⟩

/-- The all-zero byte disk a fresh format starts from. -/
def dZero : DiskB := fun _ _ => 0

/-- Directory state for the lookup evaluations: the root (inode 0) has
size 1; slot 0 of its data sector 300 holds ("a", 2), while the stale
slot 1 still holds ("x", 7). -/
def fsA : FS :=
  ⟨fun i =>
      if i = 0 then ⟨1, 1, fun k => if k = 0 then 300 else 0⟩
      else if i = 2 then ⟨0, 0, fun _ => 0⟩
      else if i = 7 then ⟨0, 0, fun _ => 0⟩
      else zeroInode,
   fun s e =>
      if s = 300 ∧ e = 0 then ⟨['a'], 2⟩
      else if s = 300 ∧ e = 1 then ⟨['x'], 7⟩
      else ⟨[], 0⟩,
   fun _ _ => 0, fun _ _ => 0⟩

/-- Same as `fsA` except that the stale slot 1 of sector 300 is zero.
`fsA` and `fsB` agree on the inode table and on the one live dirent
slot of the root. -/
def fsB : FS :=
  ⟨fsA.inodes,
   fun s e => if s = 300 ∧ e = 1 then ⟨[], 0⟩ else fsA.dirents s e,
   fsA.bytes, fsA.bmDisk⟩

/-- Same as `fsA` except that the stale slot 2 of sector 300 differs.
`fsA` and `fsC` agree on every dirent slot up to and including index
1 = size of the root directory. -/
def fsC : FS :=
  ⟨fsA.inodes,
   fun s e => if s = 300 ∧ e = 2 then ⟨['q'], 9⟩ else fsA.dirents s e,
   fsA.bytes, fsA.bmDisk⟩

/-! ## Helper lemmas -/

/-- The open-file scan succeeds exactly when some table entry carries
the inode searched for. -/
theorem is_file_open_iff (of : OpenFiles) (x : Int) :
    is_file_open of x = true
      ↔ ∃ i : Nat, i < MAX_OPEN_FILES ∧ (of (i : Int)).inode = x := by
  simp [is_file_open, List.any_eq_true, List.mem_range]

/-- Two scans with pointwise-equal predicates find the same element. -/
theorem list_find_eq_of_agree {α : Type} (p q : α → Bool) :
    ∀ l : List α, (∀ x ∈ l, p x = q x) → l.find? p = l.find? q := by
  intro l
  induction l with
  | nil => intro _; rfl
  | cons a t ih =>
    intro h
    have ha := h a (List.mem_cons_self a t)
    rw [List.find?_cons, List.find?_cons, ha]
    cases q a
    · exact ih (fun x hx => h x (List.mem_cons_of_mem a hx))
    · rfl

/-- The sector walk of `find_child_inode` gives equal results on two
states that agree on every dirent slot whose global index is at most
`n`, provided the walk starts with `idx * DIRENTS_PER_SECTOR + nentries
= n` — the invariant the loop maintains.  Every slot it examines in
iteration `idx` satisfies `e ≤ nentries`, hence has global index at
most `n`. -/
theorem findChildGo_agree (g : Geo) (fs1 fs2 : FS) (pd : Nat → Int)
    (fname : List Char) (n : Int)
    (hag : ∀ gi e : Nat, e < DIRENTS_PER_SECTOR g →
      ((gi : Int) * (DIRENTS_PER_SECTOR g : Int) + (e : Int)) ≤ n →
      fs1.dirents (pd gi) (e : Int) = fs2.dirents (pd gi) (e : Int)) :
    ∀ (fuel : Nat) (nentries : Int) (idx : Nat),
      ((idx : Int) * (DIRENTS_PER_SECTOR g : Int) + nentries = n) →
      findChildGo g fs1 pd fname fuel nentries idx
        = findChildGo g fs2 pd fname fuel nentries idx := by
  intro fuel
  induction fuel with
  | zero => intro nentries idx _; rfl
  | succ fuel ih =>
    intro nentries idx hinv
    simp only [findChildGo]
    by_cases hpos : nentries > 0
    · rw [if_pos hpos, if_pos hpos]
      have hfind :
          (List.range (DIRENTS_PER_SECTOR g)).find?
              (fun (i : Nat) => decide ((i : Int) ≤ nentries)
                && (fs1.dirents (pd idx) (i : Int)).fname == fname)
            = (List.range (DIRENTS_PER_SECTOR g)).find?
              (fun (i : Nat) => decide ((i : Int) ≤ nentries)
                && (fs2.dirents (pd idx) (i : Int)).fname == fname) := by
        apply list_find_eq_of_agree
        intro i hi
        by_cases hle : (i : Int) ≤ nentries
        · have hd : fs1.dirents (pd idx) (i : Int) = fs2.dirents (pd idx) (i : Int) := by
            apply hag idx i (List.mem_range.mp hi)
            have h1 : (idx : Int) * (DIRENTS_PER_SECTOR g : Int) + (i : Int)
                ≤ (idx : Int) * (DIRENTS_PER_SECTOR g : Int) + nentries :=
              add_le_add_left hle _
            rw [hinv] at h1
            exact h1
          rw [hd]
        · simp [hle]
      rw [hfind]
      cases hf : (List.range (DIRENTS_PER_SECTOR g)).find?
          (fun (i : Nat) => decide ((i : Int) ≤ nentries)
            && (fs2.dirents (pd idx) (i : Int)).fname == fname) with
      | none =>
        apply ih
        calc ((idx + 1 : Nat) : Int) * (DIRENTS_PER_SECTOR g : Int)
              + (nentries - (DIRENTS_PER_SECTOR g : Int))
            = (idx : Int) * (DIRENTS_PER_SECTOR g : Int) + nentries := by
              push_cast
              ring
          _ = n := hinv
      | some i =>
        have hmem := List.mem_of_find?_eq_some hf
        have hp := List.find?_some hf
        have hle : (i : Int) ≤ nentries :=
          of_decide_eq_true ((Bool.and_eq_true _ _).mp hp).1
        have hd : fs1.dirents (pd idx) (i : Int) = fs2.dirents (pd idx) (i : Int) := by
          apply hag idx i (List.mem_range.mp hmem)
          have h1 : (idx : Int) * (DIRENTS_PER_SECTOR g : Int) + (i : Int)
              ≤ (idx : Int) * (DIRENTS_PER_SECTOR g : Int) + nentries :=
            add_le_add_left hle _
          rw [hinv] at h1
          exact h1
        show (fs1.dirents (pd idx) (i : Int)).inode = (fs2.dirents (pd idx) (i : Int)).inode
        rw [hd]
    · rw [if_neg hpos, if_neg hpos]

/-- With the descriptor validation succeeding, no branch of `File_Read`
produces the `E_BAD_FD` result. -/
theorem File_Read_not_badfd (g : Geo) (fs : FS) (of : OpenFiles) (fd n : Int)
    (h : is_file_open of fd = true) :
    File_Read g fs of fd n ≠ some (-1, some Errno.E_BAD_FD, of, []) := by
  have hff : ¬ is_file_open of fd = false := by simp [h]
  simp only [File_Read]
  rw [if_neg hff]
  split
  · simp
  · split
    · simp
    · split
      · simp
      · simp

/-- With the descriptor validation succeeding, no branch of
`File_Write` produces the `E_BAD_FD` result. -/
theorem File_Write_not_badfd (g : Geo) (fs : FS) (of : OpenFiles) (fd : Int)
    (buf : Int → Nat) (n : Int) (h : is_file_open of fd = true) :
    File_Write g fs of fd buf n ≠ some (-1, some Errno.E_BAD_FD, fs, of) := by
  have hff : ¬ is_file_open of fd = false := by simp [h]
  simp only [File_Write]
  rw [if_neg hff]
  split
  · simp
  · split
    · simp
    · split
      · simp
      · simp

/-! ## The claims -/

/-- C1: the claim states that `File_Read(fd, buf, n)` returns at most
`min(n, size - pos)` bytes and advances `pos` by exactly the number of
bytes returned.  Evaluating the code at the failing input — a ten-byte
file open at position 0, read of 20 bytes — it returns 20, more than
the `min(20, 10 - 0) = 10` the claim permits, while `pos` advances by
only 10: the transfer loop never clamps `to_read` to the file size and
returns unconditionally after its first iteration. -/
theorem File_Read_returns_more_than_available :
    (File_Read geoW fsC1 ofC1 0 20).map (fun r => (r.1, (r.2.2.1 (0 : Int)).pos))
        = some (20, 10)
    ∧ ¬ ((20 : Int) ≤ min 20 ((ofC1 0).size - (ofC1 0).pos))
    ∧ (10 : Int) - (ofC1 0).pos ≠ 20 := by
  refine ⟨by decide, by decide, by decide⟩

/-- C2: the claim states that `File_Seek(fd, offset)` succeeds if and
only if `0 ≤ offset ≤ size`, failing with `E_SEEK_OUT_OF_BOUNDS`
otherwise.  Evaluating the code at the failing input — a size-10 open
file and offset -3 — the call succeeds, returns -3 and stores `pos =
-3`: the guard on line 1143 is `f->size < offset || f->size < 0` and
never compares the offset against zero. -/
theorem File_Seek_accepts_negative_offset :
    (File_Seek ofC2 0 (-3)).1 = -3
    ∧ (File_Seek ofC2 0 (-3)).2.1 = none
    ∧ ((File_Seek ofC2 0 (-3)).2.2 0).pos = -3
    ∧ ¬ (0 ≤ (-3 : Int)) := by
  refine ⟨by decide, by decide, by decide, by decide⟩

/-- C3: the claim states that after a successful removal from a parent
of size n ≥ 1 the vacated last dirent slot is zeroed.  Evaluating the
code at the failing input — removing the only child ("a", inode 2) of
a size-1 directory — the removal succeeds and decrements the size, but
slot 0, the vacated last slot, still holds ("a", 2) on disk: for
`size = 1` the swap-and-zero block (guarded by `parent->size > 1`) is
skipped entirely, and for larger sizes the `memset` that zeroes the
last slot targets `last_dirent_buffer`, which is never written back to
disk. -/
theorem remove_inode_keeps_stale_last_dirent :
    (remove_inode geoW fsC3 0 0 2).map
        (fun r => (r.1, r.2.dirents 300 0, (r.2.inodes 0).size))
      = some (0, ⟨['a'], 2⟩, 0)
    ∧ (⟨['a'], 2⟩ : Dirent) ≠ ⟨[], 0⟩ := by
  refine ⟨by decide, by decide⟩

/-- C4: the claim states that the allocator returns the smallest clear
bit in `[0, bit_capacity)` and -1 exactly when all of them are set, so
that every one of the `MAX_FILES` inode bits is reachable.  Evaluating
the code at the failing input — `geoC4` has `MAX_FILES = 16`, the
bitmap byte is 0xC0, so bits 0 and 1 are set and bit 2 is clear — the
allocation performed by `add_inode` returns -1: the `nbits` argument
passed at the call site is `INODE_BITMAP_SIZE` (2, the byte count),
and the function scans `nbits/8` bytes plus `nbits mod 8` bits, i.e.
only 2 of the 16 capacity bits.  The same call with the bit capacity
16 in place of the byte count returns the correct answer 2. -/
theorem bitmap_first_unused_scans_bytes_not_bits :
    (add_inode_alloc geoC4 dC4).1 = -1
    ∧ isBitSet (dC4 1 0) 2 = false
    ∧ 2 < geoC4.MAX_FILES
    ∧ (bitmap_first_unused geoC4.SECTOR_SIZE INODE_BITMAP_START_SECTOR
        (INODE_BITMAP_SECTORS geoC4) geoC4.MAX_FILES dC4).1 = 2 := by
  refine ⟨by decide, by decide, by decide, by decide⟩

/-- C5: the claim states that `Dir_Unlink("/")` fails with
`E_ROOT_DIR` — which the code does — and that `Dir_Unlink` on a path
whose final component does not exist fails with `E_NO_SUCH_DIR`.
Evaluating the code at the failing input — "/nope" on a fresh image —
path resolution yields `(parent, child) = (0, -1)`, the missing
`child < 0` check lets the call reach `remove_inode(1, 0, -1)`, and
the inode-offset assert there fails (modelled as `none`): the call
crashes instead of returning `E_NO_SUCH_DIR`. -/
theorem Dir_Unlink_missing_child_crashes :
    (Dir_Unlink geoW freshFS ['/']).map (fun r => (r.1, r.2.1))
        = some (-1, some Errno.E_ROOT_DIR)
    ∧ follow_path geoW freshFS ['/', 'n', 'o', 'p', 'e'] = (0, -1)
    ∧ (Dir_Unlink geoW freshFS ['/', 'n', 'o', 'p', 'e']).map
        (fun r => (r.1, r.2.1)) = none := by
  refine ⟨by decide, by decide, by decide⟩

/-- C6: for every file inode referenced by at least one open-file
entry, `File_Unlink` on a path resolving to that inode fails with
`E_FILE_IN_USE` and returns the disk state and open-file table
entirely unchanged. -/
theorem File_Unlink_open_file_rejected (g : Geo) (fs : FS) (of : OpenFiles)
    (path : List Char) (p c : Int)
    (hfp : follow_path g fs path = (p, c)) (hp : 0 ≤ p) (hc : 0 ≤ c)
    (hopen : ∃ i : Nat, i < MAX_OPEN_FILES ∧ (of (i : Int)).inode = c) :
    File_Unlink g fs of path = some (-1, some Errno.E_FILE_IN_USE, fs, of) := by
  have hio : is_file_open of c = true := (is_file_open_iff of c).mpr hopen
  simp only [File_Unlink, hfp]
  rw [if_pos hp, if_pos hc, if_pos hio]

/-- Witness for C6: on a disk whose root links the empty file "f" at
inode 1, with open-file slot 0 referencing inode 1, unlinking "/f"
fails with `E_FILE_IN_USE` and changes nothing. -/
theorem File_Unlink_open_file_rejected_witness :
    follow_path geoW fsC6 ['/', 'f'] = (0, 1)
    ∧ File_Unlink geoW fsC6 ofC6 ['/', 'f']
        = some (-1, some Errno.E_FILE_IN_USE, fsC6, ofC6) :=
  ⟨by decide,
   File_Unlink_open_file_rejected geoW fsC6 ofC6 ['/', 'f'] 0 1 (by decide)
     (by decide) (by decide) ⟨0, by decide, by decide⟩⟩

/-- C7, counterexample: the claim quantifies over every open
descriptor, but `File_Write` validates the descriptor by searching the
table for an entry whose inode field equals the fd value.  With slot 3
open on inode 7 and no table entry whose inode is 3, a write of 15361
bytes at position 0 — over the 15360-byte cap of `geoW` — fails with
`E_BAD_FD`, not with the `E_FILE_TOO_BIG` the claim requires. -/
theorem File_Write_badfd_preempts_too_big :
    (File_Write geoW fsEmpty ofX 3 (fun _ => 0) 15361).map
        (fun r => (r.1, r.2.1)) = some (-1, some Errno.E_BAD_FD)
    ∧ (ofX 3).inode = 7
    ∧ (ofX 3).pos + 15361 > (geoW.MAX_SECTORS_PER_FILE : Int) * (geoW.SECTOR_SIZE : Int)
    ∧ Errno.E_BAD_FD ≠ Errno.E_FILE_TOO_BIG := by
  refine ⟨by decide, by decide, by decide, by decide⟩

/-- C7, amended: for every fd that passes the table validation (some
open-file entry carries inode value fd) and every count n with
`pos + n > MAX_SECTORS_PER_FILE * SECTOR_SIZE`, `File_Write` fails
with `E_FILE_TOO_BIG` and returns the disk state (size, data sectors,
bitmaps) and the open-file table entirely unchanged. -/
theorem File_Write_too_big_after_validation (g : Geo) (fs : FS) (of : OpenFiles)
    (fd : Int) (buf : Int → Nat) (n : Int)
    (hval : is_file_open of fd = true)
    (hbig : (of fd).pos + n > (g.MAX_SECTORS_PER_FILE : Int) * (g.SECTOR_SIZE : Int)) :
    File_Write g fs of fd buf n = some (-1, some Errno.E_FILE_TOO_BIG, fs, of) := by
  have hff : ¬ is_file_open of fd = false := by simp [hval]
  simp only [File_Write]
  rw [if_neg hff, if_pos hbig]

/-- Witness for C7: descriptor 0 passes the validation (the free slots
have inode 0), slot 0 is open at position 0, and writing 15361 bytes
— over the 15360-byte cap of `geoW` — fails with `E_FILE_TOO_BIG`
leaving both states unchanged. -/
theorem File_Write_too_big_after_validation_witness :
    is_file_open ofW 0 = true
    ∧ (ofW 0).pos + 15361 > (geoW.MAX_SECTORS_PER_FILE : Int) * (geoW.SECTOR_SIZE : Int)
    ∧ File_Write geoW fsEmpty ofW 0 (fun _ => 0) 15361
        = some (-1, some Errno.E_FILE_TOO_BIG, fsEmpty, ofW) :=
  ⟨by decide, by decide,
   File_Write_too_big_after_validation geoW fsEmpty ofW 0 (fun _ => 0) 15361
     (by decide) (by decide)⟩

/-- C8: the claim states that after a fresh format the sector bitmap
has exactly bits `[0, DATABLOCK_START_SECTOR)` set and everything else
in its region clear, with no write outside each bitmap region.
Evaluating the format path at the failing geometry `geoC8`
(`DATABLOCK_START_SECTOR = 7`, two sector-bitmap sectors): bit 192 of
the sector bitmap — inside its region of 384 bits, far above the
7-bit prefix — is set, because the trailing-sector loop of
`bitmap_init` zeroes only the bytes below `remaining_bytes` of its
reused buffer, leaving the partial-prefix byte `bits[nbits mod 8]` in
every trailing sector; and the first inode-table sector (sector 4) has
been overwritten with that same stray byte, a write outside the
bitmap region. -/
theorem bitmap_init_strays_beyond_prefix :
    DATABLOCK_START_SECTOR geoC8 = 7
    ∧ SECTOR_BITMAP_START_SECTOR geoC8 = 2
    ∧ SECTOR_BITMAP_SECTORS geoC8 = 2
    ∧ INODE_TABLE_START_SECTOR geoC8 = 4
    ∧ bitmapBit geoC8.SECTOR_SIZE (SECTOR_BITMAP_START_SECTOR geoC8)
        (FS_Boot_bitmaps geoC8 dZero) 192 = true
    ∧ 7 ≤ 192 ∧ 192 < 2 * (24 * 8)
    ∧ (FS_Boot_bitmaps geoC8 dZero) 4 0 = 0xFE := by
  refine ⟨by decide, by decide, by decide, by decide, by decide, by decide,
    by decide, by decide⟩

/-- C9, counterexample: the claim states that looking a name up in a
directory of size n depends only on the first n dirent slots.  The
states `fsA` and `fsB` agree on the inode table and on slot 0 — the
single live slot of the size-1 root directory — and differ only in the
stale slot 1, yet the lookup of "x" returns 7 on `fsA` and -1 on
`fsB`: the scan guard `if (i > nentries) break` admits slot index n as
well. -/
theorem find_child_inode_examines_stale_slot :
    fsA.inodes = fsB.inodes
    ∧ fsA.dirents 300 0 = fsB.dirents 300 0
    ∧ (fsA.inodes 0).size = 1
    ∧ find_child_inode geoW fsA 0 ['x'] = 7
    ∧ find_child_inode geoW fsB 0 ['x'] = -1 := by
  refine ⟨rfl, by decide, by decide, by decide, by decide⟩

/-- C9, amended: resolving a child name in a directory of size n
depends only on the dirent slots with global index at most n (the
first n live slots plus the one stale slot the scan also examines):
two states agreeing on the parent inode record and on those slots give
the same lookup result. -/
theorem find_child_inode_depends_on_slots_upto_size (g : Geo)
    (fs1 fs2 : FS) (p : Int) (fname : List Char)
    (hinode : fs1.inodes p = fs2.inodes p)
    (hag : ∀ gi e : Nat, e < DIRENTS_PER_SECTOR g →
      ((gi : Int) * (DIRENTS_PER_SECTOR g : Int) + (e : Int)) ≤ (fs1.inodes p).size →
      fs1.dirents ((fs1.inodes p).data (gi : Int)) (e : Int)
        = fs2.dirents ((fs1.inodes p).data (gi : Int)) (e : Int)) :
    find_child_inode g fs1 p fname = find_child_inode g fs2 p fname := by
  unfold find_child_inode
  rw [← hinode]
  by_cases ht : (fs1.inodes p).type ≠ 1
  · rw [if_pos ht, if_pos ht]
  · rw [if_neg ht, if_neg ht]
    exact findChildGo_agree g fs1 fs2 _ fname ((fs1.inodes p).size) hag
      ((fs1.inodes p).size.toNat + 1) ((fs1.inodes p).size) 0 (by simp)

/-- Witness for C9: `fsA` and `fsC` differ only in slot 2 of the data
sector of the size-1 root directory, i.e. they agree on every slot
with index at most 1, so the lookup of "x" gives the same result — 7 —
on both. -/
theorem find_child_inode_depends_on_slots_upto_size_witness :
    (fsA.inodes 0).size = 1
    ∧ find_child_inode geoW fsA 0 ['x'] = find_child_inode geoW fsC 0 ['x']
    ∧ find_child_inode geoW fsA 0 ['x'] = 7 :=
  ⟨by decide,
   find_child_inode_depends_on_slots_upto_size geoW fsA fsC 0 ['x'] rfl
     (by
       intro gi e he hle
       simp only [show (fsA.inodes 0).size = (1 : Int) from by decide,
         show DIRENTS_PER_SECTOR geoW = 25 from by decide] at hle
       have hge : gi = 0 ∧ e ≤ 1 := by omega
       obtain ⟨hgi, he1⟩ := hge
       subst hgi
       interval_cases e
       · decide
       · decide),
   by decide⟩

/-- C10: `File_Read` and `File_Write` validate the descriptor by
searching the open-file table for an entry whose inode field equals
the fd value, not by checking slot fd: for every fd, the call fails
with `E_BAD_FD` exactly when no table entry has inode field fd (and
otherwise proceeds on slot `open_files[fd]`).  In particular fd 0
passes whenever any slot is free (free slots have inode 0), and a
genuinely open slot is rejected when no open inode number equals the
fd value. -/
theorem read_write_validate_by_inode_search (g : Geo) (fs : FS) (of : OpenFiles)
    (fd : Int) (buf : Int → Nat) (n : Int) :
    ((File_Read g fs of fd n = some (-1, some Errno.E_BAD_FD, of, []))
        ↔ ¬ ∃ i : Nat, i < MAX_OPEN_FILES ∧ (of (i : Int)).inode = fd)
    ∧ ((File_Write g fs of fd buf n = some (-1, some Errno.E_BAD_FD, fs, of))
        ↔ ¬ ∃ i : Nat, i < MAX_OPEN_FILES ∧ (of (i : Int)).inode = fd) := by
  by_cases h : is_file_open of fd = true
  · have hex := (is_file_open_iff of fd).mp h
    constructor
    · constructor
      · intro heq
        exact absurd heq (File_Read_not_badfd g fs of fd n h)
      · intro hn
        exact absurd hex hn
    · constructor
      · intro heq
        exact absurd heq (File_Write_not_badfd g fs of fd buf n h)
      · intro hn
        exact absurd hex hn
  · have hnex : ¬ ∃ i : Nat, i < MAX_OPEN_FILES ∧ (of (i : Int)).inode = fd :=
      fun hex => h ((is_file_open_iff of fd).mpr hex)
    have hfalse : is_file_open of fd = false := by
      cases hio : is_file_open of fd
      · rfl
      · exact absurd hio h
    constructor
    · constructor
      · intro _
        exact hnex
      · intro _
        simp only [File_Read]
        rw [if_pos hfalse]
    · constructor
      · intro _
        exact hnex
      · intro _
        simp only [File_Write]
        rw [if_pos hfalse]

end LibFS
